import Mathlib

/-!
Shallow embedding of the fallback dispatch combinator in
`src/proxy/http/balance/fallback.rs` (futures-0.1 style Rust).

Asynchronous values are modelled by explicit state passing: a future is a
state together with a step function `poll : state → state × outcome`; a
service (tower `svc::Service`) is a record of a readiness step, a call step
producing a response-future state, and the poll step of that response future.
Machine outcomes mirror `Poll<T, E> = Result<Async<T>, E>`; for operations
that can panic (`unreachable!`, `Option::expect`, a non-exhaustive `match`)
the outcome type `PollOut` carries an explicit `Panic` case.
-/

namespace Proxy

/-- `futures::Async`: either a finished value or "not ready". -/
inductive Async (α : Type) where
  | Ready (a : α)
  | NotReady
  deriving DecidableEq, Repr

/-- `Async::is_ready`. -/
def Async.is_ready {α : Type} : Async α → Bool
  | .Ready _ => true
  | .NotReady => false

/-- `Async::map`: map the finished value. -/
def Async.map {α β : Type} (f : α → β) : Async α → Async β
  | .Ready a => .Ready (f a)
  | .NotReady => .NotReady

/-- `futures::Poll<α, ε> = Result<Async<α>, ε>`. -/
abbrev Poll (α ε : Type) : Type := Except ε (Async α)

/-- Outcome of one poll of a machine that may also panic
(`unreachable!` / `expect` / a non-exhaustive match). -/
inductive PollOut (α ε : Type) where
  | Ready (a : α)
  | NotReady
  | Err (e : ε)
  | Panic (msg : String)
  deriving DecidableEq, Repr

/-- Map the `Ready` value of a `PollOut`, keeping pending, errors and panics. -/
def PollOut.map {α β ε : Type} (f : α → β) : PollOut α ε → PollOut β ε
  | .Ready a => .Ready (f a)
  | .NotReady => .NotReady
  | .Err e => .Err e
  | .Panic m => .Panic m

/-- `http::HeaderMap`, abstracted as an association list. -/
abbrev HeaderMap : Type := List (String × String)

/-- The non-body parts of an `http::Request`. -/
structure ReqHead where
  method : String
  uri : String
  headers : HeaderMap
  deriving DecidableEq, Repr

/-- `http::Request<P>`: head plus a body of payload type `P`. -/
structure Request (P : Type) where
  head : ReqHead
  body : P
  deriving DecidableEq, Repr

/-- The non-body parts of an `http::Response`. -/
structure RspHead where
  status : Nat
  headers : HeaderMap
  deriving DecidableEq, Repr

/-- `http::Response<β>`: head plus a body of type `β`. -/
structure Response (β : Type) where
  head : RspHead
  body : β
  deriving DecidableEq, Repr

/-- `http::Response::map`: map the body, keeping the head. -/
def Response.map {α β : Type} (f : α → β) (r : Response α) : Response β :=
  ⟨r.head, f r.body⟩

/-- `enum Fallback<P>` from the source: the primary dispatch error type,
either a soft rejection carrying back the request or a hard inner error
(the common error type is the parameter `E`). -/
inductive Fallback (P E : Type) where
  | Rejected (req : Request P)
  | Inner (e : E)

/-- `enum Body<A, B>` from the source: the tagged union of the primary (`A`)
and fallback (`B`) body types (also reused for data chunks). -/
inductive Body (α β : Type) where
  | A (a : α)
  | B (b : β)
  deriving DecidableEq, Repr

/-- A `svc::Service<Req>` with state type `σ` and response-future state
type `φ`: `poll_ready`, `call` (starting a response future), and the poll
step of that response future. -/
structure ServiceM (σ φ Req Rsp ε : Type) where
  poll_ready : σ → σ × Poll Unit ε
  call : σ → Req → σ × φ
  poll_fut : φ → φ × Poll Rsp ε

/-- `enum ResponseFuture<A, B, P>` from the source: the per-request dispatch
state. `φa` is the primary response-future state, `σb` the fallback service
state, `φb` the fallback response-future state. -/
inductive ResponseFuture (φa σb φb P : Type) where
  | Primary (future : φa) (fallback : σb)
  | FallbackPending (fallback : σb) (request : Option (Request P))
  | Fallback (f : φb)
  deriving Repr

/-- The `ResponseFuture::Fallback(ref mut f)` arm of the poll loop:
poll the fallback response future; on success tag the response `B`. -/
def ResponseFuture.pollFallback {φa σb φb P R E εb : Type} {Q : Type}
    (B : ServiceM σb φb (Request P) (Response R) εb) (iB : εb → E) (f : φb) :
    ResponseFuture φa σb φb P × PollOut (Response (Body Q R)) E :=
  match B.poll_fut f with
  | (f', .error e) => (.Fallback f', .Err (iB e))
  | (f', .ok .NotReady) => (.Fallback f', .NotReady)
  | (f', .ok (.Ready rsp)) => (.Fallback f', .Ready (rsp.map Body.B))

/-- The `ResponseFuture::FallbackPending { .. }` arm of the poll loop:
wait for the fallback service's readiness, then take the stored request
(`expect("poll after ready")` panics when it is absent), call the fallback
with it, and fall through to polling the fallback response future (the
source's `loop`). The mutated fallback service handle is dropped when the
state moves to `Fallback`, exactly as in the source. -/
def ResponseFuture.pollFallbackPending {φa σb φb P R E εb : Type} {Q : Type}
    (B : ServiceM σb φb (Request P) (Response R) εb) (iB : εb → E)
    (fb : σb) (req? : Option (Request P)) :
    ResponseFuture φa σb φb P × PollOut (Response (Body Q R)) E :=
  match B.poll_ready fb with
  | (fb', .error e) => (.FallbackPending fb' req?, .Err (iB e))
  | (fb', .ok .NotReady) => (.FallbackPending fb' req?, .NotReady)
  | (fb', .ok (.Ready _)) =>
    match req? with
    | none => (.FallbackPending fb' none, .Panic "poll after ready")
    | some req => ResponseFuture.pollFallback B iB (B.call fb' req).2

/-- `impl Future for ResponseFuture`, `fn poll`. One call of the source's
looping `poll`: the `Primary` arm matches the primary future's poll result
against `Ok(Async::Ready(rsp))`, `Err(Fallback::Inner(e))` and
`Err(Fallback::Rejected(req))` only — the source has NO arm for
`Ok(Async::NotReady)` (a non-exhaustive match), modelled here as a panic
outcome. On rejection the state becomes `FallbackPending` with the cloned
fallback handle and the stored request, and the loop re-enters that arm
within the same poll. -/
def ResponseFuture.poll {φa σb φb P Q R E εb : Type}
    (pollA : φa → φa × Poll (Response Q) (Proxy.Fallback P E))
    (B : ServiceM σb φb (Request P) (Response R) εb) (iB : εb → E) :
    ResponseFuture φa σb φb P →
      ResponseFuture φa σb φb P × PollOut (Response (Body Q R)) E
  | .Primary fut fb =>
    match pollA fut with
    | (fut', .ok (.Ready rsp)) => (.Primary fut' fb, .Ready (rsp.map Body.A))
    | (fut', .ok .NotReady) =>
      (.Primary fut' fb, .Panic "non-exhaustive match: no arm for Ok(Async::NotReady)")
    | (fut', .error (.Inner e)) => (.Primary fut' fb, .Err e)
    | (_, .error (.Rejected req)) =>
      ResponseFuture.pollFallbackPending B iB fb (some req)
  | .FallbackPending fb req? => ResponseFuture.pollFallbackPending B iB fb req?
  | .Fallback f => ResponseFuture.pollFallback B iB f

/-- `impl Service for Service`, `fn poll_ready`: delegate to the primary
service's readiness; `Inner` errors surface as-is; a `Rejected` observed
here hits `unreachable!("poll_ready must not reject a request")`. The
fallback service state (second component) is untouched. -/
def Service.poll_ready {σa φa σb P Q E : Type}
    (A : ServiceM σa φa (Request P) (Response Q) (Fallback P E))
    (s : σa × σb) : (σa × σb) × PollOut Unit E :=
  match A.poll_ready s.1 with
  | (sa', .ok (.Ready _)) => ((sa', s.2), .Ready ())
  | (sa', .ok .NotReady) => ((sa', s.2), .NotReady)
  | (sa', .error (.Inner e)) => ((sa', s.2), .Err e)
  | (sa', .error (.Rejected _)) =>
    ((sa', s.2), .Panic "poll_ready must not reject a request")

/-- `impl Service for Service`, `fn call`: start the primary dispatch and
clone the fallback handle into the returned `ResponseFuture::Primary`. -/
def Service.call {σa φa σb φb P Q E : Type}
    (A : ServiceM σa φa (Request P) (Response Q) (Fallback P E))
    (s : σa × σb) (req : Request P) :
    (σa × σb) × ResponseFuture φa σb φb P :=
  let (sa', fut) := A.call s.1 req
  ((sa', s.2), .Primary fut s.2)

/-- `impl Service<T> for MakeSvc`, `fn poll_ready`: poll the primary
make's readiness (an error propagates at once via `?`, normalized), then
the fallback make's readiness likewise; ready only when both are ready. -/
def MakeSvc.poll_ready {σa φa σb φb T SA SB εa εb E : Type}
    (pm : ServiceM σa φa T SA εa) (fm : ServiceM σb φb T SB εb)
    (ia : εa → E) (ib : εb → E) (s : σa × σb) : (σa × σb) × Poll Unit E :=
  match pm.poll_ready s.1 with
  | (sa', .error e) => ((sa', s.2), .error (ia e))
  | (sa', .ok p) =>
    match fm.poll_ready s.2 with
    | (sb', .error e) => ((sa', sb'), .error (ib e))
    | (sb', .ok f) =>
      ((sa', sb'), .ok (if p.is_ready && f.is_ready then .Ready () else .NotReady))

/-- `impl Service<T> for MakeSvc`, `fn call`: clone the target and start
both sub-constructions eagerly; the pair of construction-future states is
the `MakeFuture` state. -/
def MakeSvc.call {σa φa σb φb T SA SB εa εb : Type}
    (pm : ServiceM σa φa T SA εa) (fm : ServiceM σb φb T SB εb)
    (s : σa × σb) (target : T) : (σa × σb) × (φa × φb) :=
  let (sa', fa) := pm.call s.1 target
  let (sb', fb) := fm.call s.2 target
  ((sa', sb'), (fa, fb))

/-- `impl Future for MakeFuture`, `fn poll`:
`try_ready!(self.primary.poll().map_err(Into::into))` then the same for
the fallback construction; when the primary is not ready the fallback is
not polled on this step; the combined `Service` value (the pair of the two
constructed services) is produced only when both are done. -/
def MakeFuture.poll {φa φb SA SB εa εb E : Type}
    (pollP : φa → φa × Poll SA εa) (pollF : φb → φb × Poll SB εb)
    (ia : εa → E) (ib : εb → E) (s : φa × φb) :
    (φa × φb) × Poll (SA × SB) E :=
  match pollP s.1 with
  | (fa', .error e) => ((fa', s.2), .error (ia e))
  | (fa', .ok .NotReady) => ((fa', s.2), .ok .NotReady)
  | (fa', .ok (.Ready sa)) =>
    match pollF s.2 with
    | (fb', .error e) => ((fa', fb'), .error (ib e))
    | (fb', .ok .NotReady) => ((fa', fb'), .ok .NotReady)
    | (fb', .ok (.Ready sb)) => ((fa', fb'), .ok (.Ready (sa, sb)))

/-- A `hyper::body::Payload` with state type `σ`, data-chunk type `δ` and
error type `ε`: chunk polling, trailer polling, end-of-stream flag. -/
structure PayloadM (σ δ ε : Type) where
  poll_data : σ → σ × Poll (Option δ) ε
  poll_trailers : σ → σ × Poll (Option HeaderMap) ε
  is_end_stream : σ → Bool

/-- `impl Payload for Body`, `fn poll_data`: forward to the active
variant's body, re-tagging the chunk with the same variant
(`body.poll_data().map(|r| r.map(|o| o.map(Body::A)))` and likewise `B`). -/
def Body.poll_data {σa δa σb δb ε : Type}
    (pa : PayloadM σa δa ε) (pb : PayloadM σb δb ε) :
    Body σa σb → Body σa σb × Poll (Option (Body δa δb)) ε
  | .A s =>
    let (s', r) := pa.poll_data s
    (.A s', r.map (Async.map (Option.map Body.A)))
  | .B s =>
    let (s', r) := pb.poll_data s
    (.B s', r.map (Async.map (Option.map Body.B)))

/-- `impl Payload for Body`, `fn poll_trailers`: forward to the active
variant's body. -/
def Body.poll_trailers {σa δa σb δb ε : Type}
    (pa : PayloadM σa δa ε) (pb : PayloadM σb δb ε) :
    Body σa σb → Body σa σb × Poll (Option HeaderMap) ε
  | .A s =>
    let (s', r) := pa.poll_trailers s
    (.A s', r)
  | .B s =>
    let (s', r) := pb.poll_trailers s
    (.B s', r)

/-- `impl Payload for Body`, `fn is_end_stream`: forward to the active
variant's body. -/
def Body.is_end_stream {σa δa σb δb ε : Type}
    (pa : PayloadM σa δa ε) (pb : PayloadM σb δb ε) : Body σa σb → Bool
  | .A s => pa.is_end_stream s
  | .B s => pb.is_end_stream s

/-- `impl<A, B: Default> Default for Body<A, B>`: `Body::B(Default::default())`,
with the fallback type's default value passed explicitly. -/
def Body.default {α β : Type} (d : β) : Body α β :=
  Body.B d

/-- `Body::rsp_a`: tag a primary response's body with `A`. -/
def Body.rsp_a {α β : Type} (rsp : Response α) : Response (Body α β) :=
  rsp.map Body.A

/-- `Body::rsp_b`: tag a fallback response's body with `B`. -/
def Body.rsp_b {α β : Type} (rsp : Response β) : Response (Body α β) :=
  rsp.map Body.B

/-- Drive a polled machine for at most `n` polls: re-poll while pending,
stop at the first non-pending outcome; report pending when fuel runs out. -/
def drive {S α ε : Type} (step : S → S × PollOut α ε) : Nat → S → PollOut α ε
  | 0, _ => .NotReady
  | Nat.succ n, s =>
    match step s with
    | (s', .NotReady) => drive step n s'
    | (_, .Ready a) => .Ready a
    | (_, .Err e) => .Err e
    | (_, .Panic m) => .Panic m

/-- Modelled from the spec: "calling the fallback handler directly with the
identical (unmodified) request" — wait for the fallback service's
readiness, call it with the request, then await its response future. -/
inductive DirectCall (σ φ P : Type) where
  | WaitReady (s : σ) (req : Request P)
  | WaitRsp (f : φ)
  deriving Repr

/-- Modelled from the spec: awaiting the response future of a direct
fallback call. -/
def DirectCall.pollRsp {σ φ P R E εb : Type}
    (B : ServiceM σ φ (Request P) (Response R) εb) (iB : εb → E) (f : φ) :
    DirectCall σ φ P × PollOut (Response R) E :=
  match B.poll_fut f with
  | (f', .error e) => (.WaitRsp f', .Err (iB e))
  | (f', .ok .NotReady) => (.WaitRsp f', .NotReady)
  | (f', .ok (.Ready rsp)) => (.WaitRsp f', .Ready rsp)

/-- Modelled from the spec: one poll of a direct fallback call — poll the
service's readiness, then call it with the stored request and immediately
poll the resulting response future. -/
def DirectCall.poll {σ φ P R E εb : Type}
    (B : ServiceM σ φ (Request P) (Response R) εb) (iB : εb → E) :
    DirectCall σ φ P → DirectCall σ φ P × PollOut (Response R) E
  | .WaitReady s req =>
    match B.poll_ready s with
    | (s', .error e) => (.WaitReady s' req, .Err (iB e))
    | (s', .ok .NotReady) => (.WaitReady s' req, .NotReady)
    | (s', .ok (.Ready _)) => DirectCall.pollRsp B iB (B.call s' req).2
  | .WaitRsp f => DirectCall.pollRsp B iB f

/-! Concrete fixtures used by the witness evaluations. -/

/-- A concrete request (`GET /y`, empty body). -/
def reqY : Request String := ⟨⟨"GET", "/y", []⟩, ""⟩

/-- A concrete primary response with body `"x"`. -/
def rspX : Response String := ⟨⟨200, []⟩, "x"⟩

/-- A primary response future that resolves at once with `rspX`. -/
def pollAReady : Unit → Unit × Poll (Response String) (Fallback String String) :=
  fun u => (u, .ok (.Ready rspX))

/-- A primary response future that stays pending. -/
def pollANotReady : Unit → Unit × Poll (Response String) (Fallback String String) :=
  fun u => (u, .ok .NotReady)

/-- A primary response future that rejects, handing back `reqY`. -/
def pollAReject : Unit → Unit × Poll (Response String) (Fallback String String) :=
  fun u => (u, .error (.Rejected reqY))

/-- A primary response future that fails hard with `"boom"`. -/
def pollAInner : Unit → Unit × Poll (Response String) (Fallback String String) :=
  fun u => (u, .error (.Inner "boom"))

/-- A fallback service that is always ready and responds with the request's
uri as body; its response-future state is the finished response itself. -/
def svcEcho : ServiceM Unit (Response String) (Request String) (Response String) String where
  poll_ready := fun u => (u, .ok (.Ready ()))
  call := fun u req => (u, ⟨⟨200, []⟩, req.head.uri⟩)
  poll_fut := fun r => (r, .ok (.Ready r))

/-- A primary service machine (error type `Fallback`) that is always ready. -/
def svcPrimaryReady : ServiceM Unit Unit (Request String) (Response String) (Fallback String String) where
  poll_ready := fun u => (u, .ok (.Ready ()))
  call := fun u _ => (u, u)
  poll_fut := fun u => (u, .ok .NotReady)

/-- A defective primary service machine whose readiness check rejects. -/
def svcPrimaryRejecting : ServiceM Unit Unit (Request String) (Response String) (Fallback String String) where
  poll_ready := fun u => (u, .error (.Rejected reqY))
  call := fun u _ => (u, u)
  poll_fut := fun u => (u, .ok .NotReady)

/-- A maker machine that is always ready and constructs the service value
`"svc"` immediately. -/
def makeReady : ServiceM Unit Unit String String String where
  poll_ready := fun u => (u, .ok (.Ready ()))
  call := fun u _ => (u, u)
  poll_fut := fun u => (u, .ok (.Ready "svc"))

/-- A construction future resolving at once with the service value `"sa"`. -/
def pollMkReady : Unit → Unit × Poll String String :=
  fun u => (u, .ok (.Ready "sa"))

/-- A construction future that stays pending. -/
def pollMkPending : Unit → Unit × Poll String String :=
  fun u => (u, .ok .NotReady)

/-- A construction future failing with `"make failed"`. -/
def pollMkErr : Unit → Unit × Poll String String :=
  fun u => (u, .error "make failed")

/-- A concrete payload machine: the state is the list of chunks still to be
produced; one chunk is emitted per data poll; no trailers. -/
def payloadChunks : PayloadM (List String) String String where
  poll_data := fun s =>
    match s with
    | [] => ([], .ok (.Ready none))
    | c :: rest => (rest, .ok (.Ready (some c)))
  poll_trailers := fun s => (s, .ok (.Ready none))
  is_end_stream := fun s => s.isEmpty

/-- Simulation relation: a combined dispatch state already committed to the
fallback path for request `req`, against the corresponding state of a
direct fallback call for `req`. -/
inductive SimRF {φa σb φb P : Type} (req : Request P) :
    ResponseFuture φa σb φb P → DirectCall σb φb P → Prop
  | pending (fb : σb) :
      SimRF req (.FallbackPending fb (some req)) (.WaitReady fb req)
  | rsp (f : φb) : SimRF req (.Fallback f) (.WaitRsp f)

/-- One poll preserves the simulation and produces the direct call's
outcome with the response re-tagged `B`. -/
theorem simRF_step {φa σb φb P Q R E εb : Type}
    (pollA : φa → φa × Poll (Response Q) (Proxy.Fallback P E))
    (B : ServiceM σb φb (Request P) (Response R) εb) (iB : εb → E)
    {req : Request P} {s s' : ResponseFuture φa σb φb P}
    {t t' : DirectCall σb φb P}
    {o : PollOut (Response (Body Q R)) E} {o' : PollOut (Response R) E}
    (h : SimRF req s t)
    (hs : ResponseFuture.poll pollA B iB s = (s', o))
    (ht : DirectCall.poll B iB t = (t', o')) :
    SimRF req s' t' ∧ o = PollOut.map (Response.map Body.B) o' := by
  cases h with
  | rsp f =>
    rcases hf : B.poll_fut f with ⟨f2, r⟩
    cases r with
    | error e =>
      simp only [ResponseFuture.poll, ResponseFuture.pollFallback,
        DirectCall.poll, DirectCall.pollRsp, hf] at hs ht
      injection hs with hs1 hs2
      injection ht with ht1 ht2
      subst hs1; subst hs2; subst ht1; subst ht2
      exact ⟨SimRF.rsp f2, rfl⟩
    | ok a =>
      cases a with
      | NotReady =>
        simp only [ResponseFuture.poll, ResponseFuture.pollFallback,
          DirectCall.poll, DirectCall.pollRsp, hf] at hs ht
        injection hs with hs1 hs2
        injection ht with ht1 ht2
        subst hs1; subst hs2; subst ht1; subst ht2
        exact ⟨SimRF.rsp f2, rfl⟩
      | Ready rsp =>
        simp only [ResponseFuture.poll, ResponseFuture.pollFallback,
          DirectCall.poll, DirectCall.pollRsp, hf] at hs ht
        injection hs with hs1 hs2
        injection ht with ht1 ht2
        subst hs1; subst hs2; subst ht1; subst ht2
        exact ⟨SimRF.rsp f2, rfl⟩
  | pending fb =>
    rcases hb : B.poll_ready fb with ⟨fb', r⟩
    cases r with
    | error e =>
      simp only [ResponseFuture.poll, ResponseFuture.pollFallbackPending,
        DirectCall.poll, hb] at hs ht
      injection hs with hs1 hs2
      injection ht with ht1 ht2
      subst hs1; subst hs2; subst ht1; subst ht2
      exact ⟨SimRF.pending fb', rfl⟩
    | ok a =>
      cases a with
      | NotReady =>
        simp only [ResponseFuture.poll, ResponseFuture.pollFallbackPending,
          DirectCall.poll, hb] at hs ht
        injection hs with hs1 hs2
        injection ht with ht1 ht2
        subst hs1; subst hs2; subst ht1; subst ht2
        exact ⟨SimRF.pending fb', rfl⟩
      | Ready u =>
        rcases hf : B.poll_fut (B.call fb' req).2 with ⟨f2, r2⟩
        cases r2 with
        | error e =>
          simp only [ResponseFuture.poll, ResponseFuture.pollFallbackPending,
            ResponseFuture.pollFallback, DirectCall.poll, DirectCall.pollRsp,
            hb, hf] at hs ht
          injection hs with hs1 hs2
          injection ht with ht1 ht2
          subst hs1; subst hs2; subst ht1; subst ht2
          exact ⟨SimRF.rsp f2, rfl⟩
        | ok a2 =>
          cases a2 with
          | NotReady =>
            simp only [ResponseFuture.poll, ResponseFuture.pollFallbackPending,
              ResponseFuture.pollFallback, DirectCall.poll, DirectCall.pollRsp,
              hb, hf] at hs ht
            injection hs with hs1 hs2
            injection ht with ht1 ht2
            subst hs1; subst hs2; subst ht1; subst ht2
            exact ⟨SimRF.rsp f2, rfl⟩
          | Ready rsp =>
            simp only [ResponseFuture.poll, ResponseFuture.pollFallbackPending,
              ResponseFuture.pollFallback, DirectCall.poll, DirectCall.pollRsp,
              hb, hf] at hs ht
            injection hs with hs1 hs2
            injection ht with ht1 ht2
            subst hs1; subst hs2; subst ht1; subst ht2
            exact ⟨SimRF.rsp f2, rfl⟩

/-- Driving past a pending step. -/
theorem drive_succ_notReady {S α ε : Type} (step : S → S × PollOut α ε)
    {s : S} {s' : S} (hs : step s = (s', .NotReady)) (n : Nat) :
    drive step (n + 1) s = drive step n s' := by
  simp [drive, hs]

/-- Driving stops at a ready step. -/
theorem drive_succ_ready {S α ε : Type} (step : S → S × PollOut α ε)
    {s : S} {s' : S} {a : α} (hs : step s = (s', .Ready a)) (n : Nat) :
    drive step (n + 1) s = .Ready a := by
  simp [drive, hs]

/-- Driving stops at an error step. -/
theorem drive_succ_err {S α ε : Type} (step : S → S × PollOut α ε)
    {s : S} {s' : S} {e : ε} (hs : step s = (s', .Err e)) (n : Nat) :
    drive step (n + 1) s = .Err e := by
  simp [drive, hs]

/-- Driving stops at a panic step. -/
theorem drive_succ_panic {S α ε : Type} (step : S → S × PollOut α ε)
    {s : S} {s' : S} {m : String} (hs : step s = (s', .Panic m)) (n : Nat) :
    drive step (n + 1) s = .Panic m := by
  simp [drive, hs]

/-- Driving a fallback-committed dispatch state for any number of polls
yields exactly the direct fallback call's outcome, re-tagged `B`. -/
theorem drive_simRF {φa σb φb P Q R E εb : Type}
    (pollA : φa → φa × Poll (Response Q) (Proxy.Fallback P E))
    (B : ServiceM σb φb (Request P) (Response R) εb) (iB : εb → E)
    {req : Request P} {s : ResponseFuture φa σb φb P}
    {t : DirectCall σb φb P} (h : SimRF req s t) (n : Nat) :
    drive (ResponseFuture.poll pollA B iB) n s
      = PollOut.map (Response.map Body.B) (drive (DirectCall.poll B iB) n t) := by
  induction n generalizing s t with
  | zero => rfl
  | succ n ih =>
    rcases hs : ResponseFuture.poll pollA B iB s with ⟨s', o⟩
    rcases ht : DirectCall.poll B iB t with ⟨t', o'⟩
    obtain ⟨h1, h2⟩ := simRF_step pollA B iB h hs ht
    cases o' with
    | NotReady =>
      simp only [PollOut.map] at h2
      subst h2
      rw [drive_succ_notReady _ hs, drive_succ_notReady _ ht]
      exact ih h1
    | Ready a =>
      simp only [PollOut.map] at h2
      subst h2
      rw [drive_succ_ready _ hs, drive_succ_ready _ ht]
      rfl
    | Err e =>
      simp only [PollOut.map] at h2
      subst h2
      rw [drive_succ_err _ hs, drive_succ_err _ ht]
      rfl
    | Panic m =>
      simp only [PollOut.map] at h2
      subst h2
      rw [drive_succ_panic _ hs, drive_succ_panic _ ht]
      rfl

/-- A poll step with equal step values drives equally. -/
theorem drive_succ_congr {S α ε : Type} (step : S → S × PollOut α ε)
    {s₁ s₂ : S} (hstep : step s₁ = step s₂) (n : Nat) :
    drive step (n + 1) s₁ = drive step (n + 1) s₂ := by
  simp only [drive, hstep]

/-- C1: when the primary dispatch future resolves with the soft rejection
`Rejected(req)`, driving the combined dispatch for any number of polls
yields exactly the outcome of calling the fallback handler directly with
the identical, unmodified request `req` (its `DirectCall` process), with a
successful response re-tagged `B`. -/
theorem rejection_dispatches_to_fallback {φa σb φb P Q R E εb : Type}
    (pollA : φa → φa × Poll (Response Q) (Proxy.Fallback P E))
    (B : ServiceM σb φb (Request P) (Response R) εb) (iB : εb → E)
    (fut fut' : φa) (fb : σb) (req : Request P)
    (h : pollA fut = (fut', .error (.Rejected req))) (n : Nat) :
    drive (ResponseFuture.poll pollA B iB) n (.Primary fut fb)
      = PollOut.map (Response.map Body.B)
          (drive (DirectCall.poll B iB) n (.WaitReady fb req)) := by
  cases n with
  | zero => rfl
  | succ n =>
    have hstep : ResponseFuture.poll pollA B iB (.Primary fut fb)
        = ResponseFuture.poll pollA B iB (.FallbackPending fb (some req)) := by
      simp only [ResponseFuture.poll, h]
    rw [drive_succ_congr _ hstep]
    exact drive_simRF pollA B iB (SimRF.pending fb) (n + 1)

/-- Witness for C1: the concrete rejecting primary with the echo fallback;
one poll resolves with the echoed response tagged `B`. -/
theorem rejection_dispatches_to_fallback_witness :
    pollAReject () = ((), .error (.Rejected reqY))
    ∧ drive (ResponseFuture.poll pollAReject svcEcho id) 1 (.Primary () ())
        = PollOut.map (Response.map Body.B)
            (drive (DirectCall.poll svcEcho id) 1 (.WaitReady () reqY))
    ∧ drive (ResponseFuture.poll pollAReject svcEcho id) 1 (.Primary () ())
        = .Ready ⟨⟨200, []⟩, Body.B "/y"⟩ :=
  ⟨rfl, rejection_dispatches_to_fallback pollAReject svcEcho id () () () reqY rfl 1, rfl⟩

/-- C2: when the primary dispatch future resolves with response `rsp`, one
poll of the combined dispatch resolves with the very same response tagged
`A` (head preserved, body `Body.A rsp.body`), for every fallback service
machine whatsoever, whose state `fb` is also left untouched — the fallback
receives zero calls. -/
theorem primary_success_tags_A {φa σb φb P Q R E : Type}
    (pollA : φa → φa × Poll (Response Q) (Proxy.Fallback P E))
    (fut fut' : φa) (fb : σb) (rsp : Response Q)
    (h : pollA fut = (fut', .ok (.Ready rsp))) :
    ∀ {εb : Type} (B : ServiceM σb φb (Request P) (Response R) εb) (iB : εb → E),
      ResponseFuture.poll pollA B iB (.Primary fut fb)
        = (.Primary fut' fb, .Ready ⟨rsp.head, Body.A rsp.body⟩) := by
  intro εb B iB
  simp only [ResponseFuture.poll, h]
  rfl

/-- Witness for C2: the always-succeeding concrete primary; the echo
fallback (or any other) is ignored and the response is `rspX` tagged `A`. -/
theorem primary_success_tags_A_witness :
    pollAReady () = ((), .ok (.Ready rspX))
    ∧ ResponseFuture.poll pollAReady svcEcho id (.Primary () ())
        = (.Primary () (), .Ready ⟨rspX.head, Body.A rspX.body⟩) :=
  ⟨rfl, primary_success_tags_A pollAReady () () () rspX rfl svcEcho id⟩

/-- C3: when the primary dispatch future fails with the hard error
`Inner(e)`, one poll of the combined dispatch fails with exactly `e`, for
every fallback service machine whatsoever, and the state remains `Primary`
(no transition into any fallback state ever happens). -/
theorem inner_error_short_circuits {φa σb φb P Q R E : Type}
    (pollA : φa → φa × Poll (Response Q) (Proxy.Fallback P E))
    (fut fut' : φa) (fb : σb) (e : E)
    (h : pollA fut = (fut', .error (.Inner e))) :
    ∀ {εb : Type} (B : ServiceM σb φb (Request P) (Response R) εb) (iB : εb → E),
      ResponseFuture.poll pollA B iB (.Primary fut fb)
        = (.Primary fut' fb, .Err e) := by
  intro εb B iB
  simp only [ResponseFuture.poll, h]

/-- Witness for C3: the concrete hard-failing primary; the dispatch fails
with `"boom"` and stays in the `Primary` state. -/
theorem inner_error_short_circuits_witness :
    pollAInner () = ((), .error (.Inner "boom"))
    ∧ ResponseFuture.poll pollAInner svcEcho id (.Primary () ())
        = (.Primary () (), .Err "boom") :=
  ⟨rfl, inner_error_short_circuits pollAInner () () () "boom" rfl svcEcho id⟩

/-- C4: the combined Service's `poll_ready` returns exactly the primary
handler's readiness — ready on `Ready`, pending on `NotReady`, the error
`e` on `Inner(e)` — with the fallback state untouched, and its outcome is
the same for every fallback state (the fallback never gates readiness:
the definition consults no fallback machine at all). -/
theorem service_poll_ready_passthrough {σa φa σb P Q E : Type}
    (A : ServiceM σa φa (Request P) (Response Q) (Proxy.Fallback P E))
    (sa sa' : σa) (sb : σb) (r : Poll Unit (Proxy.Fallback P E))
    (h : A.poll_ready sa = (sa', r)) :
    ((∀ u, r = .ok (.Ready u) →
        Service.poll_ready A (sa, sb) = ((sa', sb), .Ready ()))
    ∧ (r = .ok .NotReady →
        Service.poll_ready A (sa, sb) = ((sa', sb), .NotReady))
    ∧ (∀ e, r = .error (.Inner e) →
        Service.poll_ready A (sa, sb) = ((sa', sb), .Err e)))
    ∧ ∀ sb2 : σb,
        (Service.poll_ready A (sa, sb2)).2 = (Service.poll_ready A (sa, sb)).2 := by
  refine ⟨⟨?_, ?_, ?_⟩, ?_⟩
  · intro u hr
    subst hr
    simp [Service.poll_ready, h]
  · intro hr
    subst hr
    simp [Service.poll_ready, h]
  · intro e hr
    subst hr
    simp [Service.poll_ready, h]
  · intro sb2
    cases r with
    | error f =>
      cases f with
      | Rejected q => simp [Service.poll_ready, h]
      | Inner e => simp [Service.poll_ready, h]
    | ok a =>
      cases a with
      | Ready u => simp [Service.poll_ready, h]
      | NotReady => simp [Service.poll_ready, h]

/-- Witness for C4: the always-ready concrete primary; the combined
readiness is ready. -/
theorem service_poll_ready_passthrough_witness :
    svcPrimaryReady.poll_ready () = ((), .ok (.Ready ()))
    ∧ @Service.poll_ready Unit Unit Unit String String String svcPrimaryReady ((), ())
        = (((), ()), .Ready ()) :=
  ⟨rfl,
    (service_poll_ready_passthrough svcPrimaryReady () () ()
        (.ok (.Ready ())) rfl).1.1 () rfl⟩

/-- C5: when the primary's readiness result is never a rejection, the
combined `poll_ready` never reaches the defect branch (no panic — the
operation is total); when the primary's readiness does reject, the result
is the `unreachable!` panic, not a recoverable error value. -/
theorem service_poll_ready_rejection_defect {σa φa σb P Q E : Type}
    (A : ServiceM σa φa (Request P) (Response Q) (Proxy.Fallback P E))
    (sa sa' : σa) (sb : σb) (r : Poll Unit (Proxy.Fallback P E))
    (h : A.poll_ready sa = (sa', r)) :
    ((∀ q : Request P, r ≠ .error (.Rejected q)) →
        ∀ m, (Service.poll_ready A (sa, sb)).2 ≠ .Panic m)
    ∧ (∀ q : Request P, r = .error (.Rejected q) →
        (Service.poll_ready A (sa, sb)).2
            = .Panic "poll_ready must not reject a request"
        ∧ ∀ e : E, (Service.poll_ready A (sa, sb)).2 ≠ .Err e) := by
  constructor
  · intro hno m
    cases r with
    | error f =>
      cases f with
      | Rejected q => exact absurd rfl (hno q)
      | Inner e => simp [Service.poll_ready, h]
    | ok a =>
      cases a with
      | Ready u => simp [Service.poll_ready, h]
      | NotReady => simp [Service.poll_ready, h]
  · intro q hr
    subst hr
    constructor
    · simp [Service.poll_ready, h]
    · intro e
      simp [Service.poll_ready, h]

/-- Witness for C5: the defective rejecting primary; the combined
readiness panics with the `unreachable!` message. -/
theorem service_poll_ready_rejection_defect_witness :
    svcPrimaryRejecting.poll_ready () = ((), .error (.Rejected reqY))
    ∧ (@Service.poll_ready Unit Unit Unit String String String svcPrimaryRejecting ((), ())).2
        = .Panic "poll_ready must not reject a request" :=
  ⟨rfl,
    ((service_poll_ready_rejection_defect svcPrimaryRejecting () () ()
        (.error (.Rejected reqY)) rfl).2 reqY rfl).1⟩

/-- C6 (the code at the claim's failing input): when the primary dispatch
future is merely pending, the `Primary` arm of `ResponseFuture::poll` has
no matching arm — the source's match covers only `Ok(Async::Ready(..))`,
`Err(Fallback::Inner(..))` and `Err(Fallback::Rejected(..))` — so the poll
neither stays pending nor advances: it hits the missing-arm defect. -/
theorem primary_pending_hits_missing_arm :
    ResponseFuture.poll pollANotReady svcEcho id (.Primary () ())
      = (.Primary () (),
          .Panic "non-exhaustive match: no arm for Ok(Async::NotReady)") := rfl

/-- C7: one poll of the factory future polls the primary construction
first — when it is pending the poll returns pending with the fallback
construction untouched (for every fallback construction whatsoever), and a
primary construction error fails the future immediately the same way; once
the primary's value `sa` is obtained the fallback construction is polled
likewise, and the future resolves with the `Service` pair only when both
are done, failing with the normalized error (discarding `sa`) when the
fallback construction errs. -/
theorem make_future_poll_order {φa φb SA SB εa εb E : Type}
    (pollP : φa → φa × Poll SA εa) (pollF : φb → φb × Poll SB εb)
    (ia : εa → E) (ib : εb → E) (fa fa' : φa) (fb : φb)
    (rp : Poll SA εa) (hp : pollP fa = (fa', rp)) :
    ((rp = .ok .NotReady →
        ∀ {εb2 : Type} (pollF2 : φb → φb × Poll SB εb2) (ib2 : εb2 → E),
          MakeFuture.poll pollP pollF2 ia ib2 (fa, fb)
            = ((fa', fb), .ok .NotReady))
    ∧ (∀ e, rp = .error e →
        ∀ {εb2 : Type} (pollF2 : φb → φb × Poll SB εb2) (ib2 : εb2 → E),
          MakeFuture.poll pollP pollF2 ia ib2 (fa, fb)
            = ((fa', fb), .error (ia e))))
    ∧ (∀ sa, rp = .ok (.Ready sa) →
        ∀ (fb' : φb) (rf : Poll SB εb), pollF fb = (fb', rf) →
          MakeFuture.poll pollP pollF ia ib (fa, fb)
            = ((fa', fb'),
                match rf with
                | .error e => .error (ib e)
                | .ok .NotReady => .ok .NotReady
                | .ok (.Ready sb) => .ok (.Ready (sa, sb)))) := by
  refine ⟨⟨?_, ?_⟩, ?_⟩
  · intro hr εb2 pollF2 ib2
    subst hr
    simp [MakeFuture.poll, hp]
  · intro e hr εb2 pollF2 ib2
    subst hr
    simp [MakeFuture.poll, hp]
  · intro sa hr fb' rf hf
    subst hr
    cases rf with
    | error e => simp [MakeFuture.poll, hp, hf]
    | ok a =>
      cases a with
      | Ready sb => simp [MakeFuture.poll, hp, hf]
      | NotReady => simp [MakeFuture.poll, hp, hf]

/-- Witness for C7: pending primary construction leaves the (erroring)
fallback construction untouched and reports pending. -/
theorem make_future_poll_order_witness :
    pollMkPending () = ((), .ok .NotReady)
    ∧ MakeFuture.poll pollMkPending pollMkErr id id ((), ())
        = (((), ()), .ok .NotReady) :=
  ⟨rfl,
    (make_future_poll_order pollMkPending pollMkErr id id () () ()
        (.ok .NotReady) rfl).1.1 rfl pollMkErr id⟩

/-- C8: the factory's `poll_ready` — a primary-make readiness error is
normalized and returned at once with the fallback make untouched (for
every fallback make whatsoever); otherwise the fallback make's readiness
is polled too, its error normalized and returned, and in the error-free
case the result is ready exactly when both sub-factories report ready,
pending in every other case. -/
theorem make_svc_poll_ready_both {σa φa σb φb T SA SB εa εb E : Type}
    (pm : ServiceM σa φa T SA εa) (fm : ServiceM σb φb T SB εb)
    (ia : εa → E) (ib : εb → E) (sa sa' : σa) (sb : σb)
    (rp : Poll Unit εa) (hp : pm.poll_ready sa = (sa', rp)) :
    ((∀ e, rp = .error e →
        ∀ {εb2 : Type} (fm2 : ServiceM σb φb T SB εb2) (ib2 : εb2 → E),
          MakeSvc.poll_ready pm fm2 ia ib2 (sa, sb)
            = ((sa', sb), .error (ia e)))
    ∧ (∀ p, rp = .ok p →
        ∀ (sb' : σb) (rf : Poll Unit εb), fm.poll_ready sb = (sb', rf) →
          MakeSvc.poll_ready pm fm ia ib (sa, sb)
            = ((sa', sb'),
                match rf with
                | .error e => .error (ib e)
                | .ok f =>
                  .ok (if p.is_ready && f.is_ready then .Ready () else .NotReady))))
    ∧ (∀ (p f : Async Unit) (sb' : σb), rp = .ok p →
        fm.poll_ready sb = (sb', .ok f) →
          ((MakeSvc.poll_ready pm fm ia ib (sa, sb)).2 = .ok (.Ready ())
            ↔ p.is_ready = true ∧ f.is_ready = true)) := by
  refine ⟨⟨?_, ?_⟩, ?_⟩
  · intro e hr εb2 fm2 ib2
    subst hr
    simp [MakeSvc.poll_ready, hp]
  · intro p hr sb' rf hf
    subst hr
    cases rf with
    | error e => simp [MakeSvc.poll_ready, hp, hf]
    | ok f => simp [MakeSvc.poll_ready, hp, hf]
  · intro p f sb' hr hf
    subst hr
    cases p with
    | NotReady =>
      simp [MakeSvc.poll_ready, hp, hf, Async.is_ready]
    | Ready u =>
      cases f with
      | NotReady => simp [MakeSvc.poll_ready, hp, hf, Async.is_ready]
      | Ready v => simp [MakeSvc.poll_ready, hp, hf, Async.is_ready]

/-- Witness for C8: both concrete makes ready — combined readiness ready,
and the ready-iff-both-ready equivalence at that input. -/
theorem make_svc_poll_ready_both_witness :
    makeReady.poll_ready () = ((), .ok (.Ready ()))
    ∧ ((MakeSvc.poll_ready makeReady makeReady id id ((), ())).2 = .ok (.Ready ())
        ↔ (Async.Ready ()).is_ready = true ∧ (Async.Ready ()).is_ready = true) :=
  ⟨rfl,
    (make_svc_poll_ready_both makeReady makeReady id id () () ()
        (.ok (.Ready ())) rfl).2 (.Ready ()) (.Ready ()) () rfl rfl⟩

/-- C9: each `Body` operation is a pure forward to the wrapped value of
the active variant: `poll_data` yields the underlying chunk/end-of-stream
outcome with chunks re-tagged by the active variant (errors unchanged),
`poll_trailers` yields the underlying trailers outcome, and
`is_end_stream` the underlying flag — for both tags `A` and `B`. -/
theorem body_ops_forward {σa δa σb δb ε : Type}
    (pa : PayloadM σa δa ε) (pb : PayloadM σb δb ε) :
    ((∀ s s' r, pa.poll_data s = (s', r) →
        Body.poll_data pa pb (.A s)
          = (.A s', r.map (Async.map (Option.map Body.A))))
    ∧ (∀ s s' r, pb.poll_data s = (s', r) →
        Body.poll_data pa pb (.B s)
          = (.B s', r.map (Async.map (Option.map Body.B))))
    ∧ (∀ s s' e, pa.poll_data s = (s', .error e) →
        (Body.poll_data pa pb (.A s)).2 = .error e)
    ∧ (∀ s s' e, pb.poll_data s = (s', .error e) →
        (Body.poll_data pa pb (.B s)).2 = .error e))
    ∧ ((∀ s, Body.poll_trailers pa pb (.A s)
          = (.A (pa.poll_trailers s).1, (pa.poll_trailers s).2))
    ∧ (∀ s, Body.poll_trailers pa pb (.B s)
          = (.B (pb.poll_trailers s).1, (pb.poll_trailers s).2)))
    ∧ ((∀ s, Body.is_end_stream pa pb (.A s) = pa.is_end_stream s)
    ∧ (∀ s, Body.is_end_stream pa pb (.B s) = pb.is_end_stream s)) := by
  refine ⟨⟨?_, ?_, ?_, ?_⟩, ⟨?_, ?_⟩, ?_, ?_⟩
  · intro s s' r hd
    simp [Body.poll_data, hd]
  · intro s s' r hd
    simp [Body.poll_data, hd]
  · intro s s' e hd
    simp [Body.poll_data, hd, Except.map]
  · intro s s' e hd
    simp [Body.poll_data, hd, Except.map]
  · intro s
    simp [Body.poll_trailers]
  · intro s
    simp [Body.poll_trailers]
  · intro s
    simp [Body.is_end_stream]
  · intro s
    simp [Body.is_end_stream]

/-- Witness for C9: the concrete chunked payload on both tags: a data poll
on an `A`-tagged body forwards the underlying chunk, re-tagged `A`. -/
theorem body_ops_forward_witness :
    payloadChunks.poll_data ["h", "i"] = (["i"], .ok (.Ready (some "h")))
    ∧ Body.poll_data payloadChunks payloadChunks (.A ["h", "i"])
        = (.A ["i"],
            Except.map (Async.map (Option.map Body.A)) (.ok (.Ready (some "h")))) :=
  ⟨rfl,
    (body_ops_forward payloadChunks payloadChunks).1.1
      ["h", "i"] ["i"] (.ok (.Ready (some "h"))) rfl⟩

/-- C10: the default (empty) `Body` instance is always the `B` (fallback)
variant wrapping the fallback type's default value, never the `A`
(primary) variant — for every pair of body types and every default value. -/
theorem body_default_is_fallback_variant (α β : Type) (d : β) :
    @Body.default α β d = Body.B d ∧ ∀ a : α, @Body.default α β d ≠ Body.A a := by
  refine ⟨rfl, ?_⟩
  intro a h
  exact Body.noConfusion h

end Proxy






